import Mathlib

/-!
Verification of the settings module of the `loki` repository
(`src-tauri/src/settings/{types,storage,commands}.rs`).

The Rust code is shallowly embedded as follows.

* `serde_json::Value` becomes the inductive `JValue`; JSON numbers keep the
  serde distinction between integral and floating values (`JNum`).  Rust
  `f32`/`f64` fields are modelled by Lean `Float`; no claim performs float
  arithmetic, floats are only stored and copied.
* Rust `u32` fields are modelled by `Nat`; the JSON decoding functions perform
  the range check `0 ≤ i < 2^32` exactly where serde does.  A well-formedness
  predicate (`AppSettings.wf`) records the invariants every value of the Rust
  type `AppSettings` has by construction: `u32` fields fit in 32 bits and the
  provider `HashMap` has no duplicate keys.
* Rust `HashMap<String, _>` becomes an association list.  Rust hash maps have
  unique keys and unspecified iteration order; here iteration is list order
  and all update operations touch the first matching entry, which agrees with
  the map semantics on duplicate-free lists.
* The tauri `Store` holding one optional value under the key "settings"
  becomes `StorageState`: `none` models the uninitialized store, `some pv`
  the initialized store whose persisted value is `pv : Option JValue`.
  `store.save()` (disk flush) is modelled as always succeeding; its possible
  IO failure is outside the embedding.
* Serde's derived (de)serialization for the settings records is spelled out
  field by field (`toValueAppSettings`, `fromValueAppSettings`, ...); error
  strings produced by `format!` keep their literal part, with serde's inner
  error text abstracted away.
* `import_settings` takes the payload as a parsed `JValue`: in the source the
  payload is a string given to `serde_json::from_str`, which is text parsing
  (library code, out of scope) followed by exactly the structural decoding
  modelled here.
* `test_provider_internal` is asynchronous only to sleep; the sleeps are
  dropped and the function becomes a pure `Except`.
-/

namespace Loki

/-- JSON numbers as in serde_json: integral or floating. -/
inductive JNum where
  | int : Int → JNum
  | float : Float → JNum

/-- serde_json's `Value`. -/
inductive JValue where
  | null : JValue
  | bool : Bool → JValue
  | num : JNum → JValue
  | str : String → JValue
  | arr : List JValue → JValue
  | obj : List (String × JValue) → JValue

/-- `ThemeMode` from types.rs (serde lowercase unit variants). -/
inductive ThemeMode where
  | light | dark | system
deriving DecidableEq

/-- `ProviderSettings` from types.rs; `rate_limit_rpm` is `Option<u32>`. -/
structure ProviderSettings where
  api_key : Option String
  custom_endpoint : Option String
  default_model : Option String
  rate_limit_rpm : Option Nat
  enabled : Bool
deriving DecidableEq

/-- `AppSettings` from types.rs; the provider `HashMap` is an assoc list. -/
structure AppSettings where
  providers : List (String × ProviderSettings)
  theme : ThemeMode
  sidebar_width : Nat
  auto_save_interval : Nat
  default_temperature : Float
  default_max_tokens : Nat
  enable_analytics : Bool
  debug_mode : Bool
  compact_mode : Bool

/-- `ProviderSettingsExport` from types.rs: no `api_key` field. -/
structure ProviderSettingsExport where
  custom_endpoint : Option String
  default_model : Option String
  rate_limit_rpm : Option Nat
  enabled : Bool

/-- `AppSettingsExport` from types.rs. -/
structure AppSettingsExport where
  providers : List (String × ProviderSettingsExport)
  theme : ThemeMode
  sidebar_width : Nat
  auto_save_interval : Nat
  default_temperature : Float
  default_max_tokens : Nat
  enable_analytics : Bool
  debug_mode : Bool
  compact_mode : Bool

/-- `SettingsExport` from types.rs. -/
structure SettingsExport where
  version : String
  timestamp : String
  settings : AppSettingsExport

/-- `impl Default for AppSettings` from types.rs (insertion order kept). -/
def AppSettings.default : AppSettings :=
  { providers :=
      [ ("openai",
         { api_key := none, custom_endpoint := none,
           default_model := some ("gpt-4o"), rate_limit_rpm := some 60,
           enabled := true }),
        ("anthropic",
         { api_key := none, custom_endpoint := none,
           default_model := some ("claude-sonnet-4-20250514"),
           rate_limit_rpm := some 60, enabled := false }),
        ("google",
         { api_key := none, custom_endpoint := none,
           default_model := some ("gemini-2.5-pro"),
           rate_limit_rpm := some 60, enabled := false }),
        ("ollama",
         { api_key := none, custom_endpoint := some ("http://localhost:11434"),
           default_model := some ("llama2"), rate_limit_rpm := some 0,
           enabled := false }) ],
    theme := ThemeMode.system,
    sidebar_width := 320,
    auto_save_interval := 30,
    default_temperature := 0.7,
    default_max_tokens := 150,
    enable_analytics := false,
    debug_mode := false,
    compact_mode := false }

/-- `AppSettings::to_export` from types.rs. -/
def AppSettings.to_export (s : AppSettings) : AppSettingsExport :=
  { providers := s.providers.map (fun kv =>
      (kv.1,
       { custom_endpoint := kv.2.custom_endpoint,
         default_model := kv.2.default_model,
         rate_limit_rpm := kv.2.rate_limit_rpm,
         enabled := kv.2.enabled })),
    theme := s.theme,
    sidebar_width := s.sidebar_width,
    auto_save_interval := s.auto_save_interval,
    default_temperature := s.default_temperature,
    default_max_tokens := s.default_max_tokens,
    enable_analytics := s.enable_analytics,
    debug_mode := s.debug_mode,
    compact_mode := s.compact_mode }

/-! ### serde encoding (`serde_json::to_value`) -/

/-- Encoding of `Option<String>` (`None` ↦ `null`). -/
def toValueOptString : Option String → JValue
  | none => JValue.null
  | some s => JValue.str s

/-- Encoding of `Option<u32>`. -/
def toValueOptU32 : Option Nat → JValue
  | none => JValue.null
  | some n => JValue.num (JNum.int n)

/-- Encoding of `ThemeMode` (lowercase unit variants become strings). -/
def toValueTheme : ThemeMode → JValue
  | ThemeMode.light => JValue.str ("light")
  | ThemeMode.dark => JValue.str ("dark")
  | ThemeMode.system => JValue.str ("system")

/-- Encoding of `ProviderSettings` (derived serialize, declaration order). -/
def toValueProviderSettings (p : ProviderSettings) : JValue :=
  JValue.obj
    [ ("api_key", toValueOptString p.api_key),
      ("custom_endpoint", toValueOptString p.custom_endpoint),
      ("default_model", toValueOptString p.default_model),
      ("rate_limit_rpm", toValueOptU32 p.rate_limit_rpm),
      ("enabled", JValue.bool p.enabled) ]

/-- Encoding of `AppSettings` (derived serialize, declaration order). -/
def toValueAppSettings (s : AppSettings) : JValue :=
  JValue.obj
    [ ("providers",
       JValue.obj (s.providers.map (fun kv => (kv.1, toValueProviderSettings kv.2)))),
      ("theme", toValueTheme s.theme),
      ("sidebar_width", JValue.num (JNum.int s.sidebar_width)),
      ("auto_save_interval", JValue.num (JNum.int s.auto_save_interval)),
      ("default_temperature", JValue.num (JNum.float s.default_temperature)),
      ("default_max_tokens", JValue.num (JNum.int s.default_max_tokens)),
      ("enable_analytics", JValue.bool s.enable_analytics),
      ("debug_mode", JValue.bool s.debug_mode),
      ("compact_mode", JValue.bool s.compact_mode) ]

/-- Encoding of `ProviderSettingsExport`: note there is no `api_key` key. -/
def toValueProviderSettingsExport (p : ProviderSettingsExport) : JValue :=
  JValue.obj
    [ ("custom_endpoint", toValueOptString p.custom_endpoint),
      ("default_model", toValueOptString p.default_model),
      ("rate_limit_rpm", toValueOptU32 p.rate_limit_rpm),
      ("enabled", JValue.bool p.enabled) ]

/-- Encoding of `AppSettingsExport`. -/
def toValueAppSettingsExport (s : AppSettingsExport) : JValue :=
  JValue.obj
    [ ("providers",
       JValue.obj (s.providers.map (fun kv => (kv.1, toValueProviderSettingsExport kv.2)))),
      ("theme", toValueTheme s.theme),
      ("sidebar_width", JValue.num (JNum.int s.sidebar_width)),
      ("auto_save_interval", JValue.num (JNum.int s.auto_save_interval)),
      ("default_temperature", JValue.num (JNum.float s.default_temperature)),
      ("default_max_tokens", JValue.num (JNum.int s.default_max_tokens)),
      ("enable_analytics", JValue.bool s.enable_analytics),
      ("debug_mode", JValue.bool s.debug_mode),
      ("compact_mode", JValue.bool s.compact_mode) ]

/-- Encoding of `SettingsExport`. -/
def toValueSettingsExport (e : SettingsExport) : JValue :=
  JValue.obj
    [ ("version", JValue.str e.version),
      ("timestamp", JValue.str e.timestamp),
      ("settings", toValueAppSettingsExport e.settings) ]

/-! ### serde decoding (`serde_json::from_value`) -/

/-- First binding of key `k` in a JSON object's field list. -/
def lookupField : List (String × JValue) → String → Option JValue
  | [], _ => none
  | kv :: rest, k => if kv.1 = k then some kv.2 else lookupField rest k

/-- Decoding a `bool`. -/
def fromValueBool : JValue → Option Bool
  | JValue.bool b => some b
  | _ => none

/-- Decoding a `String`. -/
def fromValueString : JValue → Option String
  | JValue.str s => some s
  | _ => none

/-- Decoding a `u32`: integral JSON number in `[0, 2^32)`. -/
def fromValueU32 : JValue → Option Nat
  | JValue.num (JNum.int i) =>
      if 0 ≤ i ∧ i < 4294967296 then some i.toNat else none
  | _ => none

/-- Decoding an `f32`: any JSON number (serde accepts integers too). -/
def fromValueF32 : JValue → Option Float
  | JValue.num (JNum.int i) => some (Float.ofInt i)
  | JValue.num (JNum.float f) => some f
  | _ => none

/-- Decoding an `Option<String>`. -/
def fromValueOptString : JValue → Option (Option String)
  | JValue.null => some none
  | JValue.str s => some (some s)
  | _ => none

/-- Decoding an `Option<u32>`. -/
def fromValueOptU32 : JValue → Option (Option Nat)
  | JValue.null => some none
  | JValue.num (JNum.int i) =>
      if 0 ≤ i ∧ i < 4294967296 then some (some i.toNat) else none
  | _ => none

/-- Decoding `ThemeMode` from its lowercase variant name. -/
def fromValueTheme : JValue → Option ThemeMode
  | JValue.str s =>
      match s with
      | "light" => some ThemeMode.light
      | "dark" => some ThemeMode.dark
      | "system" => some ThemeMode.system
      | _ => none
  | _ => none

/-- Looking up and decoding one required `bool` field. -/
def fieldBool (fs : List (String × JValue)) (k : String) : Option Bool :=
  (lookupField fs k).bind fromValueBool

/-- Looking up and decoding one required `String` field. -/
def fieldString (fs : List (String × JValue)) (k : String) : Option String :=
  (lookupField fs k).bind fromValueString

/-- Looking up and decoding one required `u32` field. -/
def fieldU32 (fs : List (String × JValue)) (k : String) : Option Nat :=
  (lookupField fs k).bind fromValueU32

/-- Looking up and decoding one required `f32` field. -/
def fieldF32 (fs : List (String × JValue)) (k : String) : Option Float :=
  (lookupField fs k).bind fromValueF32

/-- Looking up and decoding one required `Option<String>` field. -/
def fieldOptString (fs : List (String × JValue)) (k : String) : Option (Option String) :=
  (lookupField fs k).bind fromValueOptString

/-- Looking up and decoding one required `Option<u32>` field. -/
def fieldOptU32 (fs : List (String × JValue)) (k : String) : Option (Option Nat) :=
  (lookupField fs k).bind fromValueOptU32

/-- Looking up and decoding one required `ThemeMode` field. -/
def fieldTheme (fs : List (String × JValue)) (k : String) : Option ThemeMode :=
  (lookupField fs k).bind fromValueTheme

/-- Decoding `ProviderSettings` (derived deserialize: every field required,
unknown fields ignored). -/
def fromValueProviderSettings (v : JValue) : Option ProviderSettings :=
  match v with
  | JValue.obj fs =>
      (fieldOptString fs ("api_key")).bind fun api_key =>
      (fieldOptString fs ("custom_endpoint")).bind fun custom_endpoint =>
      (fieldOptString fs ("default_model")).bind fun default_model =>
      (fieldOptU32 fs ("rate_limit_rpm")).bind fun rate_limit_rpm =>
      (fieldBool fs ("enabled")).bind fun enabled =>
      some { api_key, custom_endpoint, default_model, rate_limit_rpm, enabled }
  | _ => none

/-- Decoding the provider map: each object field decoded in order. -/
def fromValueProviders (v : JValue) : Option (List (String × ProviderSettings)) :=
  match v with
  | JValue.obj fs =>
      fs.mapM (fun kv => (fromValueProviderSettings kv.2).map (fun p => (kv.1, p)))
  | _ => none

/-- Decoding `AppSettings`. -/
def fromValueAppSettings (v : JValue) : Option AppSettings :=
  match v with
  | JValue.obj fs =>
      ((lookupField fs ("providers")).bind fromValueProviders).bind fun providers =>
      (fieldTheme fs ("theme")).bind fun theme =>
      (fieldU32 fs ("sidebar_width")).bind fun sidebar_width =>
      (fieldU32 fs ("auto_save_interval")).bind fun auto_save_interval =>
      (fieldF32 fs ("default_temperature")).bind fun default_temperature =>
      (fieldU32 fs ("default_max_tokens")).bind fun default_max_tokens =>
      (fieldBool fs ("enable_analytics")).bind fun enable_analytics =>
      (fieldBool fs ("debug_mode")).bind fun debug_mode =>
      (fieldBool fs ("compact_mode")).bind fun compact_mode =>
      some { providers, theme, sidebar_width, auto_save_interval,
             default_temperature, default_max_tokens, enable_analytics,
             debug_mode, compact_mode }
  | _ => none

/-- Decoding `ProviderSettingsExport`. -/
def fromValueProviderSettingsExport (v : JValue) : Option ProviderSettingsExport :=
  match v with
  | JValue.obj fs =>
      (fieldOptString fs ("custom_endpoint")).bind fun custom_endpoint =>
      (fieldOptString fs ("default_model")).bind fun default_model =>
      (fieldOptU32 fs ("rate_limit_rpm")).bind fun rate_limit_rpm =>
      (fieldBool fs ("enabled")).bind fun enabled =>
      some { custom_endpoint, default_model, rate_limit_rpm, enabled }
  | _ => none

/-- Decoding the export provider map. -/
def fromValueProvidersExport (v : JValue) :
    Option (List (String × ProviderSettingsExport)) :=
  match v with
  | JValue.obj fs =>
      fs.mapM (fun kv => (fromValueProviderSettingsExport kv.2).map (fun p => (kv.1, p)))
  | _ => none

/-- Decoding `AppSettingsExport`. -/
def fromValueAppSettingsExport (v : JValue) : Option AppSettingsExport :=
  match v with
  | JValue.obj fs =>
      ((lookupField fs ("providers")).bind fromValueProvidersExport).bind fun providers =>
      (fieldTheme fs ("theme")).bind fun theme =>
      (fieldU32 fs ("sidebar_width")).bind fun sidebar_width =>
      (fieldU32 fs ("auto_save_interval")).bind fun auto_save_interval =>
      (fieldF32 fs ("default_temperature")).bind fun default_temperature =>
      (fieldU32 fs ("default_max_tokens")).bind fun default_max_tokens =>
      (fieldBool fs ("enable_analytics")).bind fun enable_analytics =>
      (fieldBool fs ("debug_mode")).bind fun debug_mode =>
      (fieldBool fs ("compact_mode")).bind fun compact_mode =>
      some { providers, theme, sidebar_width, auto_save_interval,
             default_temperature, default_max_tokens, enable_analytics,
             debug_mode, compact_mode }
  | _ => none

/-- Decoding `SettingsExport`. -/
def fromValueSettingsExport (v : JValue) : Option SettingsExport :=
  match v with
  | JValue.obj fs =>
      (fieldString fs ("version")).bind fun version =>
      (fieldString fs ("timestamp")).bind fun timestamp =>
      ((lookupField fs ("settings")).bind fromValueAppSettingsExport).bind fun settings =>
      some { version, timestamp, settings }
  | _ => none

/-! ### Storage operations (storage.rs) -/

/-- The tauri store bound by `SettingsStorage`: `none` = not initialized,
`some pv` = initialized with `pv` the value persisted under "settings". -/
structure StorageState where
  store : Option (Option JValue)

/-- `SettingsStorage::get_settings`.  The serde error detail interpolated by
`format!` is abstracted to the literal part of the message. -/
def get_settings (st : StorageState) : Except String AppSettings :=
  match st.store with
  | none => Except.error ("Store not initialized")
  | some none => Except.ok AppSettings.default
  | some (some v) =>
      match fromValueAppSettings v with
      | some s => Except.ok s
      | none => Except.error ("Failed to deserialize settings")

/-- `SettingsStorage::save_settings`.  Serialization of a well-typed record
never fails; the disk flush `store.save()` is modelled as succeeding. -/
def save_settings (st : StorageState) (s : AppSettings) : Except String StorageState :=
  match st.store with
  | none => Except.error ("Store not initialized")
  | some _ => Except.ok { store := some (some (toValueAppSettings s)) }

/-- One iteration of the update loop in `SettingsStorage::update_settings`:
recognized top-level fields are set when the value coerces, everything else
is ignored. -/
def applyUpdate (s : AppSettings) (kv : String × JValue) : AppSettings :=
  match kv.1 with
  | "theme" =>
      match fromValueTheme kv.2 with
      | some theme => { s with theme := theme }
      | none => s
  | "sidebar_width" =>
      match fromValueU32 kv.2 with
      | some width => { s with sidebar_width := width }
      | none => s
  | "auto_save_interval" =>
      match fromValueU32 kv.2 with
      | some interval => { s with auto_save_interval := interval }
      | none => s
  | "default_temperature" =>
      match fromValueF32 kv.2 with
      | some temp => { s with default_temperature := temp }
      | none => s
  | "default_max_tokens" =>
      match fromValueU32 kv.2 with
      | some tokens => { s with default_max_tokens := tokens }
      | none => s
  | "enable_analytics" =>
      match fromValueBool kv.2 with
      | some enable => { s with enable_analytics := enable }
      | none => s
  | "debug_mode" =>
      match fromValueBool kv.2 with
      | some debug => { s with debug_mode := debug }
      | none => s
  | "compact_mode" =>
      match fromValueBool kv.2 with
      | some compact => { s with compact_mode := compact }
      | none => s
  | _ => s

/-- `SettingsStorage::update_settings`.  The Rust `HashMap` iteration order is
unspecified; the model iterates in list order. -/
def update_settings (st : StorageState) (updates : List (String × JValue)) :
    Except String (StorageState × AppSettings) :=
  match get_settings st with
  | Except.error e => Except.error e
  | Except.ok s0 =>
      let s := updates.foldl applyUpdate s0
      match save_settings st s with
      | Except.error e => Except.error e
      | Except.ok st' => Except.ok (st', s)

/-- `HashMap::get_mut` followed by mutation, on the assoc-list model: apply
`f` to the first entry with key `k`, or do nothing when `k` is absent. -/
def updateFirst (l : List (String × ProviderSettings)) (k : String)
    (f : ProviderSettings → ProviderSettings) : List (String × ProviderSettings) :=
  match l with
  | [] => []
  | kv :: rest => if kv.1 = k then (kv.1, f kv.2) :: rest else kv :: updateFirst rest k f

/-- One iteration of the update loop in
`SettingsStorage::update_provider_settings` (empty strings coerce to `None`
for the three optional string-ish fields). -/
def applyProviderUpdate (p : ProviderSettings) (kv : String × JValue) : ProviderSettings :=
  match kv.1 with
  | "enabled" =>
      match fromValueBool kv.2 with
      | some enabled => { p with enabled := enabled }
      | none => p
  | "api_key" =>
      match fromValueString kv.2 with
      | some key => { p with api_key := if key.isEmpty then none else some key }
      | none => p
  | "custom_endpoint" =>
      match fromValueString kv.2 with
      | some endpoint =>
          { p with custom_endpoint := if endpoint.isEmpty then none else some endpoint }
      | none => p
  | "default_model" =>
      match fromValueString kv.2 with
      | some model => { p with default_model := if model.isEmpty then none else some model }
      | none => p
  | "rate_limit_rpm" =>
      match fromValueU32 kv.2 with
      | some limit => { p with rate_limit_rpm := some limit }
      | none => p
  | _ => p

/-- `SettingsStorage::update_provider_settings`: the whole update loop runs
inside `if let Some(ps) = providers.get_mut(provider)`; an unknown provider
leaves the record unchanged but still persists it. -/
def update_provider_settings (st : StorageState) (provider : String)
    (updates : List (String × JValue)) : Except String (StorageState × AppSettings) :=
  match get_settings st with
  | Except.error e => Except.error e
  | Except.ok s0 =>
      let s := { s0 with
        providers :=
          updateFirst s0.providers provider (fun p => updates.foldl applyProviderUpdate p) }
      match save_settings st s with
      | Except.error e => Except.error e
      | Except.ok st' => Except.ok (st', s)

/-- `SettingsStorage::reset_settings`. -/
def reset_settings (st : StorageState) : Except String (StorageState × AppSettings) :=
  let s := AppSettings.default
  match save_settings st s with
  | Except.error e => Except.error e
  | Except.ok st' => Except.ok (st', s)

/-- `SettingsStorage::export_settings`; `chrono::Utc::now().to_rfc3339()` is
passed in as the parameter `now`. -/
def export_settings (st : StorageState) (now : String) : Except String SettingsExport :=
  match get_settings st with
  | Except.error e => Except.error e
  | Except.ok s =>
      Except.ok { version := ("1.0.0"), timestamp := now, settings := s.to_export }

/-- One iteration of the provider-import loop in
`SettingsStorage::import_settings`: overwrite the four non-credential fields,
"Keep existing API key". -/
def importProvider (acc : AppSettings) (kv : String × ProviderSettingsExport) : AppSettings :=
  { acc with providers := updateFirst acc.providers kv.1 (fun p =>
      { p with custom_endpoint := kv.2.custom_endpoint,
               default_model := kv.2.default_model,
               rate_limit_rpm := kv.2.rate_limit_rpm,
               enabled := kv.2.enabled }) }

/-- The "Import non-sensitive settings" block of
`SettingsStorage::import_settings`: overwrite all non-provider fields from
the payload. -/
def importBase (s0 : AppSettings) (ex : SettingsExport) : AppSettings :=
  { s0 with
    theme := ex.settings.theme,
    sidebar_width := ex.settings.sidebar_width,
    auto_save_interval := ex.settings.auto_save_interval,
    default_temperature := ex.settings.default_temperature,
    default_max_tokens := ex.settings.default_max_tokens,
    enable_analytics := ex.settings.enable_analytics,
    debug_mode := ex.settings.debug_mode,
    compact_mode := ex.settings.compact_mode }

/-- `SettingsStorage::import_settings`.  The payload is the parsed JSON value
of the export text: `serde_json::from_str` is JSON text parsing followed by
exactly the structural decoding `fromValueSettingsExport`. -/
def import_settings (st : StorageState) (payload : JValue) :
    Except String (StorageState × AppSettings) :=
  match fromValueSettingsExport payload with
  | none => Except.error ("Failed to parse settings export")
  | some ex =>
      match get_settings st with
      | Except.error e => Except.error e
      | Except.ok s0 =>
          let s2 := ex.settings.providers.foldl importProvider (importBase s0 ex)
          match save_settings st s2 with
          | Except.error e => Except.error e
          | Except.ok st' => Except.ok (st', s2)

/-- `HashMap::get` on the assoc-list model: first entry with key `k`. -/
def lookupProv (l : List (String × ProviderSettings)) (k : String) : Option ProviderSettings :=
  match l with
  | [] => none
  | kv :: rest => if kv.1 = k then some kv.2 else lookupProv rest k

/-- `SettingsStorage::get_api_key`. -/
def get_api_key (st : StorageState) (provider : String) : Except String (Option String) :=
  match get_settings st with
  | Except.error e => Except.error e
  | Except.ok s => Except.ok ((lookupProv s.providers provider).bind ProviderSettings.api_key)

/-- `SettingsStorage::set_api_key`. -/
def set_api_key (st : StorageState) (provider : String) (api_key : Option String) :
    Except String (StorageState × AppSettings) :=
  match get_settings st with
  | Except.error e => Except.error e
  | Except.ok s0 =>
      let s := { s0 with
        providers :=
          updateFirst s0.providers provider (fun p => { p with api_key := api_key }) }
      match save_settings st s with
      | Except.error e => Except.error e
      | Except.ok st' => Except.ok (st', s)

/-! ### Connection validator (commands.rs, `test_provider_internal`) -/

/-- Rust `str::contains` (substring test) on the character lists. -/
def strContainsAux (p : List Char) : List Char → Bool
  | [] => p.isEmpty
  | c :: t => (p.isPrefixOf (c :: t) : Bool) || strContainsAux p t

/-- Rust `str::contains` for strings. -/
def strContains (s pat : String) : Bool :=
  strContainsAux pat.data s.data

/-- Rust `str::starts_with` (byte prefix; on valid UTF-8 this coincides with
character-list prefix). -/
def strStartsWith (s pat : String) : Bool :=
  pat.data.isPrefixOf s.data

/-- `test_provider_internal` from commands.rs, with the simulated-latency
sleeps dropped (they only model timing).  Error strings are the exact
`format!` outputs. -/
def test_provider_internal (provider : String) (config : ProviderSettings) :
    Except String Bool :=
  match provider with
  | "openai" =>
      match config.api_key with
      | some api_key =>
          if api_key.isEmpty then Except.error ("API key is required for OpenAI")
          else Except.ok (strStartsWith api_key ("sk-"))
      | none => Except.error ("API key is required for OpenAI")
  | "anthropic" =>
      match config.api_key with
      | some api_key =>
          if api_key.isEmpty then Except.error ("API key is required for Anthropic")
          else Except.ok (strStartsWith api_key ("sk-ant-"))
      | none => Except.error ("API key is required for Anthropic")
  | "google" =>
      match config.api_key with
      | some api_key =>
          if api_key.isEmpty then Except.error ("API key is required for Google")
          else Except.ok (decide (10 < api_key.utf8ByteSize))
      | none => Except.error ("API key is required for Google")
  | "ollama" =>
      match config.custom_endpoint with
      | some endpoint =>
          Except.ok (strContains endpoint ("localhost") || strContains endpoint ("127.0.0.1"))
      | none => Except.error ("Custom endpoint is required for Ollama")
  | _ => Except.error ("Unknown provider: " ++ provider)

/-! ### Derived notions used by the claims -/

/-- `u32::MAX + 1`. -/
def u32Bound : Nat := 4294967296

/-- The provider key set of a record (in list order). -/
def AppSettings.provKeys (s : AppSettings) : List String :=
  s.providers.map Prod.fst

/-- Invariants every value of the Rust type `AppSettings` has by construction:
`u32` fields fit in 32 bits and the provider map has no duplicate keys. -/
def AppSettings.wf (s : AppSettings) : Prop :=
  s.provKeys.Nodup ∧
  s.sidebar_width < u32Bound ∧
  s.auto_save_interval < u32Bound ∧
  s.default_max_tokens < u32Bound ∧
  ∀ kv ∈ s.providers, kv.2.rate_limit_rpm.getD 0 < u32Bound

instance (s : AppSettings) : Decidable s.wf := by
  unfold AppSettings.wf
  infer_instance

/-- The field list of a JSON object (else empty). -/
def JValue.objFields : JValue → List (String × JValue)
  | JValue.obj fs => fs
  | _ => []

/-- The entries of the `settings.providers` object inside a serialized
export payload. -/
def exportPayloadProviderEntries (v : JValue) : List (String × JValue) :=
  ((lookupField
    ((lookupField v.objFields ("settings")).getD JValue.null).objFields
    ("providers")).getD JValue.null).objFields

/-! ### Helper lemmas -/

theorem lookupProv_eq_none_of_not_mem (l : List (String × ProviderSettings)) (k : String)
    (h : k ∉ l.map Prod.fst) : lookupProv l k = none := by
  induction l with
  | nil => rfl
  | cons kv t ih =>
      simp only [List.map_cons, List.mem_cons, not_or] at h
      unfold lookupProv
      rw [if_neg (fun he => h.1 he.symm)]
      exact ih h.2

theorem store_some_of_get_ok (st : StorageState) (R : AppSettings)
    (h : get_settings st = Except.ok R) : ∃ pv, st.store = some pv := by
  cases hs : st.store with
  | none =>
      unfold get_settings at h
      rw [hs] at h
      cases h
  | some pv => exact ⟨pv, rfl⟩

theorem save_settings_ok (st : StorageState) (R : AppSettings)
    (h : get_settings st = Except.ok R) (s : AppSettings) :
    save_settings st s = Except.ok { store := some (some (toValueAppSettings s)) } := by
  obtain ⟨pv, hs⟩ := store_some_of_get_ok st R h
  unfold save_settings
  rw [hs]

theorem update_settings_eq (st : StorageState) (R : AppSettings)
    (updates : List (String × JValue)) (h : get_settings st = Except.ok R) :
    update_settings st updates =
      Except.ok ({ store := some (some (toValueAppSettings (updates.foldl applyUpdate R))) },
        updates.foldl applyUpdate R) := by
  unfold update_settings
  rw [h]
  show (match save_settings st (updates.foldl applyUpdate R) with
    | Except.error e => Except.error e
    | Except.ok st' => Except.ok (st', updates.foldl applyUpdate R)) = _
  rw [save_settings_ok st R h]

theorem update_provider_settings_eq (st : StorageState) (R : AppSettings)
    (provider : String) (updates : List (String × JValue))
    (h : get_settings st = Except.ok R) :
    update_provider_settings st provider updates =
      Except.ok ({ store := some (some (toValueAppSettings
          { R with providers :=
              updateFirst R.providers provider (fun p => updates.foldl applyProviderUpdate p) })) },
        { R with providers :=
            updateFirst R.providers provider (fun p => updates.foldl applyProviderUpdate p) }) := by
  unfold update_provider_settings
  rw [h]
  show (match save_settings st
      { R with providers :=
          updateFirst R.providers provider (fun p => updates.foldl applyProviderUpdate p) } with
    | Except.error e => Except.error e
    | Except.ok st' => Except.ok (st',
        { R with providers :=
            updateFirst R.providers provider (fun p => updates.foldl applyProviderUpdate p) })) = _
  rw [save_settings_ok st R h]

theorem reset_settings_eq (st : StorageState) (R : AppSettings)
    (h : get_settings st = Except.ok R) :
    reset_settings st =
      Except.ok ({ store := some (some (toValueAppSettings AppSettings.default)) },
        AppSettings.default) := by
  unfold reset_settings
  show (match save_settings st AppSettings.default with
    | Except.error e => Except.error e
    | Except.ok st' => Except.ok (st', AppSettings.default)) = _
  rw [save_settings_ok st R h]

theorem export_settings_eq (st : StorageState) (R : AppSettings) (now : String)
    (h : get_settings st = Except.ok R) :
    export_settings st now =
      Except.ok { version := ("1.0.0"), timestamp := now, settings := R.to_export } := by
  unfold export_settings
  rw [h]

theorem import_settings_eq (st : StorageState) (R : AppSettings) (payload : JValue)
    (ex : SettingsExport) (h : get_settings st = Except.ok R)
    (hfv : fromValueSettingsExport payload = some ex) :
    import_settings st payload =
      Except.ok ({ store := some (some (toValueAppSettings
          (ex.settings.providers.foldl importProvider (importBase R ex)))) },
        ex.settings.providers.foldl importProvider (importBase R ex)) := by
  unfold import_settings
  rw [hfv, h]
  show (match save_settings st
      (ex.settings.providers.foldl importProvider (importBase R ex)) with
    | Except.error e => Except.error e
    | Except.ok st' => Except.ok (st',
        ex.settings.providers.foldl importProvider (importBase R ex))) = _
  rw [save_settings_ok st R h]

theorem set_api_key_eq (st : StorageState) (R : AppSettings) (provider : String)
    (key : Option String) (h : get_settings st = Except.ok R) :
    set_api_key st provider key =
      Except.ok ({ store := some (some (toValueAppSettings
          { R with providers :=
              updateFirst R.providers provider (fun p => { p with api_key := key }) })) },
        { R with providers :=
            updateFirst R.providers provider (fun p => { p with api_key := key }) }) := by
  unfold set_api_key
  rw [h]
  show (match save_settings st
      { R with providers :=
          updateFirst R.providers provider (fun p => { p with api_key := key }) } with
    | Except.error e => Except.error e
    | Except.ok st' => Except.ok (st',
        { R with providers :=
            updateFirst R.providers provider (fun p => { p with api_key := key }) })) = _
  rw [save_settings_ok st R h]

theorem applyUpdate_providers (s : AppSettings) (kv : String × JValue) :
    (applyUpdate s kv).providers = s.providers := by
  unfold applyUpdate
  split <;> (try split) <;> rfl

theorem foldl_applyUpdate_providers (updates : List (String × JValue)) (s : AppSettings) :
    (updates.foldl applyUpdate s).providers = s.providers := by
  induction updates generalizing s with
  | nil => rfl
  | cons kv t ih => rw [List.foldl_cons, ih, applyUpdate_providers]

theorem updateFirst_map_fst (l : List (String × ProviderSettings)) (k : String)
    (f : ProviderSettings → ProviderSettings) :
    (updateFirst l k f).map Prod.fst = l.map Prod.fst := by
  induction l with
  | nil => rfl
  | cons kv t ih =>
      unfold updateFirst
      by_cases h : kv.1 = k
      · rw [if_pos h]
        rfl
      · rw [if_neg h, List.map_cons, List.map_cons, ih]

theorem lookupProv_updateFirst_api (l : List (String × ProviderSettings)) (k : String)
    (f : ProviderSettings → ProviderSettings) (hf : ∀ q, (f q).api_key = q.api_key)
    (p' : String) :
    (lookupProv (updateFirst l k f) p').map ProviderSettings.api_key =
      (lookupProv l p').map ProviderSettings.api_key := by
  induction l with
  | nil => rfl
  | cons kv t ih =>
      unfold updateFirst
      by_cases h : kv.1 = k
      · rw [if_pos h]
        show Option.map ProviderSettings.api_key
            (if kv.1 = p' then some (f kv.2) else lookupProv t p') =
          Option.map ProviderSettings.api_key
            (if kv.1 = p' then some kv.2 else lookupProv t p')
        by_cases h2 : kv.1 = p'
        · rw [if_pos h2, if_pos h2]
          simp [hf]
        · rw [if_neg h2, if_neg h2]
      · rw [if_neg h]
        show Option.map ProviderSettings.api_key
            (if kv.1 = p' then some kv.2 else lookupProv (updateFirst t k f) p') =
          Option.map ProviderSettings.api_key
            (if kv.1 = p' then some kv.2 else lookupProv t p')
        by_cases h2 : kv.1 = p'
        · rw [if_pos h2, if_pos h2]
        · rw [if_neg h2, if_neg h2]
          exact ih

theorem importProvider_api (acc : AppSettings) (kv : String × ProviderSettingsExport)
    (p' : String) :
    (lookupProv (importProvider acc kv).providers p').map ProviderSettings.api_key =
      (lookupProv acc.providers p').map ProviderSettings.api_key := by
  unfold importProvider
  exact lookupProv_updateFirst_api acc.providers kv.1
    (fun p =>
      { p with custom_endpoint := kv.2.custom_endpoint,
               default_model := kv.2.default_model,
               rate_limit_rpm := kv.2.rate_limit_rpm,
               enabled := kv.2.enabled })
    (fun _ => rfl) p'

theorem foldl_importProvider_api (provs : List (String × ProviderSettingsExport))
    (acc : AppSettings) (p' : String) :
    (lookupProv ((provs.foldl importProvider acc).providers) p').map ProviderSettings.api_key =
      (lookupProv acc.providers p').map ProviderSettings.api_key := by
  induction provs generalizing acc with
  | nil => rfl
  | cons kv t ih => rw [List.foldl_cons, ih, importProvider_api]

theorem importProvider_keys (acc : AppSettings) (kv : String × ProviderSettingsExport) :
    (importProvider acc kv).providers.map Prod.fst = acc.providers.map Prod.fst := by
  unfold importProvider
  exact updateFirst_map_fst acc.providers kv.1 _

theorem foldl_importProvider_keys (provs : List (String × ProviderSettingsExport))
    (acc : AppSettings) :
    ((provs.foldl importProvider acc).providers).map Prod.fst = acc.providers.map Prod.fst := by
  induction provs generalizing acc with
  | nil => rfl
  | cons kv t ih => rw [List.foldl_cons, ih, importProvider_keys]

/-! ### Claims -/

/-- C1: for every Settings Record, the export produced by `export_settings`
serializes to a payload in which every provider entry is structurally missing
the `api_key` field: the key "api_key" does not occur among the keys of any
provider object of the payload. -/
theorem export_no_api_key_field (st : StorageState) (now : String) (ex : SettingsExport)
    (_h : export_settings st now = Except.ok ex) :
    ∀ kv ∈ exportPayloadProviderEntries (toValueSettingsExport ex),
      ("api_key") ∉ kv.2.objFields.map Prod.fst := by
  intro kv hkv
  have hred : exportPayloadProviderEntries (toValueSettingsExport ex) =
      ex.settings.providers.map (fun e => (e.1, toValueProviderSettingsExport e.2)) := rfl
  rw [hred] at hkv
  obtain ⟨⟨k, pe⟩, _, rfl⟩ := List.mem_map.mp hkv
  intro hmem
  simp [toValueProviderSettingsExport, JValue.objFields] at hmem

/-- C1 witness at a concrete state. -/
theorem export_no_api_key_field_witness :
    ("api_key") ∉ (JValue.objFields (toValueProviderSettingsExport
      { custom_endpoint := none, default_model := some ("gpt-4o"),
        rate_limit_rpm := some 60, enabled := true })).map Prod.fst :=
  export_no_api_key_field { store := some none } ("t")
    { version := ("1.0.0"), timestamp := ("t"), settings := AppSettings.default.to_export }
    rfl
    (("openai"), toValueProviderSettingsExport
      { custom_endpoint := none, default_model := some ("gpt-4o"),
        rate_limit_rpm := some 60, enabled := true })
    (List.Mem.head _)

/-- C6 (amended): the connection test fails with the missing-credential error
naming the provider when the required field is missing: for openai, anthropic
and google a missing (`None`) or empty api_key; for ollama a missing (`None`)
custom_endpoint — an empty-string ollama endpoint is not an error (the test
just returns false, see the counterexample).  Every provider identifier
outside the four known ones fails with the unknown-provider error. -/
theorem test_provider_missing_credential (config : ProviderSettings) :
    ((config.api_key = none ∨ config.api_key = some ("")) →
      test_provider_internal ("openai") config =
        Except.error ("API key is required for OpenAI") ∧
      test_provider_internal ("anthropic") config =
        Except.error ("API key is required for Anthropic") ∧
      test_provider_internal ("google") config =
        Except.error ("API key is required for Google")) ∧
    (config.custom_endpoint = none →
      test_provider_internal ("ollama") config =
        Except.error ("Custom endpoint is required for Ollama")) ∧
    (∀ p : String,
      p ∉ [("openai"), ("anthropic"), ("google"), ("ollama")] →
      test_provider_internal p config = Except.error (("Unknown provider: ") ++ p)) := by
  refine ⟨?_, ?_, ?_⟩
  · rintro (hk | hk) <;>
      refine ⟨?_, ?_, ?_⟩ <;> (unfold test_provider_internal; rw [hk]) <;> rfl
  · intro hk
    unfold test_provider_internal
    rw [hk]
    rfl
  · intro p hp
    simp only [List.mem_cons, List.not_mem_nil, or_false, not_or] at hp
    obtain ⟨h1, h2, h3, h4⟩ := hp
    unfold test_provider_internal
    split
    all_goals simp_all

/-- C6 witness: openai with no key errors; "foo" is an unknown provider. -/
theorem test_provider_missing_credential_witness :
    test_provider_internal ("openai")
      { api_key := none, custom_endpoint := none, default_model := none,
        rate_limit_rpm := none, enabled := true } =
      Except.error ("API key is required for OpenAI") :=
  ((test_provider_missing_credential
    { api_key := none, custom_endpoint := none, default_model := none,
      rate_limit_rpm := none, enabled := true }).1 (Or.inl rfl)).1

/-- C6 counterexample to the claim as stated: ollama with an *empty* (but
present) custom_endpoint does not fail with a missing-credential error — the
test returns `Ok(false)`. -/
theorem test_provider_ollama_empty_endpoint_ok :
    test_provider_internal ("ollama")
      { api_key := none, custom_endpoint := some (""), default_model := none,
        rate_limit_rpm := none, enabled := false } = Except.ok false := rfl

/-- C7: with the required field supplied non-empty, the test returns exactly
the per-provider pass condition: openai iff the key byte-wise starts with
"sk-", anthropic iff it starts with "sk-ant-", google iff its byte length
exceeds 10, ollama iff the endpoint contains "localhost" or "127.0.0.1". -/
theorem test_provider_pass_conditions (config : ProviderSettings) :
    (∀ k, config.api_key = some k → k ≠ ("") →
      test_provider_internal ("openai") config = Except.ok (strStartsWith k ("sk-")) ∧
      test_provider_internal ("anthropic") config = Except.ok (strStartsWith k ("sk-ant-")) ∧
      test_provider_internal ("google") config = Except.ok (decide (10 < k.utf8ByteSize))) ∧
    (∀ e, config.custom_endpoint = some e → e ≠ ("") →
      test_provider_internal ("ollama") config =
        Except.ok (strContains e ("localhost") || strContains e ("127.0.0.1"))) := by
  constructor
  · intro k hk hne
    refine ⟨?_, ?_, ?_⟩ <;> (unfold test_provider_internal; rw [hk]) <;>
      simp [String.isEmpty_iff, hne]
  · intro e he _
    unfold test_provider_internal
    rw [he]
    rfl

/-- C7 witness: `test_provider_connection("openai", {api_key: "sk-abc"})`
passes. -/
theorem test_provider_pass_conditions_witness :
    test_provider_internal ("openai")
      { api_key := some ("sk-abc"), custom_endpoint := none, default_model := none,
        rate_limit_rpm := none, enabled := true } =
      Except.ok (strStartsWith ("sk-abc") ("sk-")) :=
  ((test_provider_pass_conditions
    { api_key := some ("sk-abc"), custom_endpoint := none, default_model := none,
      rate_limit_rpm := none, enabled := true }).1 ("sk-abc") rfl (by decide)).1

/-- C8: on an initialized store, a missing persisted value yields the default
record (never an error), and a persisted value that exists yields a
deserialization error exactly when it does not decode to the record shape. -/
theorem get_settings_default_or_error :
    get_settings { store := some none } = Except.ok AppSettings.default ∧
    (∀ v, fromValueAppSettings v = none →
      get_settings { store := some (some v) } =
        Except.error ("Failed to deserialize settings")) ∧
    (∀ v s, fromValueAppSettings v = some s →
      get_settings { store := some (some v) } = Except.ok s) := by
  refine ⟨rfl, ?_, ?_⟩
  · intro v hv
    show (match fromValueAppSettings v with
      | some s => Except.ok s
      | none => Except.error ("Failed to deserialize settings")) = _
    rw [hv]
  · intro v s hv
    show (match fromValueAppSettings v with
      | some s => Except.ok s
      | none => Except.error ("Failed to deserialize settings")) = _
    rw [hv]

/-- C8 witness: `null` does not decode, so a persisted `null` is an error. -/
theorem get_settings_default_or_error_witness :
    get_settings { store := some (some JValue.null) } =
      Except.error ("Failed to deserialize settings") :=
  get_settings_default_or_error.2.1 JValue.null rfl

/-- C10: `get_api_key` on a provider id that is not a key of the record
returns `Ok(None)`, the same as a known provider with no key configured —
never an error. -/
theorem get_api_key_unknown_provider (st : StorageState) (R : AppSettings) (p : String)
    (hget : get_settings st = Except.ok R) :
    (p ∉ R.provKeys → get_api_key st p = Except.ok none) ∧
    (∀ ps, lookupProv R.providers p = some ps → ps.api_key = none →
      get_api_key st p = Except.ok none) := by
  constructor
  · intro hp
    unfold get_api_key
    rw [hget]
    show Except.ok ((lookupProv R.providers p).bind ProviderSettings.api_key) = _
    rw [lookupProv_eq_none_of_not_mem R.providers p hp]
    rfl
  · intro ps hps hk
    unfold get_api_key
    rw [hget]
    show Except.ok ((lookupProv R.providers p).bind ProviderSettings.api_key) = _
    rw [hps]
    show Except.ok ps.api_key = _
    rw [hk]

/-- C10 witness: "foo" is not a provider key of the default record. -/
theorem get_api_key_unknown_provider_witness :
    get_api_key { store := some none } ("foo") = Except.ok none :=
  (get_api_key_unknown_provider { store := some none } AppSettings.default ("foo") rfl).1
    (by decide)

/-- C2: a successful import never changes any provider's api_key: looking up
any provider id in the imported record gives a config with the same api_key
as before the import. -/
theorem import_preserves_api_key (st : StorageState) (R S : AppSettings)
    (payload : JValue) (st' : StorageState)
    (hget : get_settings st = Except.ok R)
    (himp : import_settings st payload = Except.ok (st', S)) :
    ∀ p, (lookupProv S.providers p).map ProviderSettings.api_key =
      (lookupProv R.providers p).map ProviderSettings.api_key := by
  intro p
  cases hfv : fromValueSettingsExport payload with
  | none =>
      unfold import_settings at himp
      rw [hfv] at himp
      cases himp
  | some ex =>
      rw [import_settings_eq st R payload ex hget hfv] at himp
      simp only [Except.ok.injEq, Prod.mk.injEq] at himp
      obtain ⟨-, h2⟩ := himp
      subst h2
      rw [foldl_importProvider_api]
      rfl

/-- The current record of the C2 witness: default settings with an openai
credential configured. -/
def importWitnessR : AppSettings :=
  { AppSettings.default with
    providers :=
      updateFirst AppSettings.default.providers ("openai")
        (fun p => { p with api_key := some ("sk-secret") }) }

/-- The import payload of the C2 witness: an export that disables openai. -/
def importWitnessPayload : JValue :=
  toValueSettingsExport
    { version := ("1.0.0"), timestamp := ("t"),
      settings := { AppSettings.default.to_export with
        providers :=
          [ (("openai"),
             { custom_endpoint := none, default_model := some ("gpt-4o"),
               rate_limit_rpm := some 60, enabled := false }) ] } }

/-- The record after the C2 witness import: openai disabled, credential kept. -/
def importWitnessS : AppSettings :=
  { AppSettings.default with
    providers :=
      updateFirst AppSettings.default.providers ("openai")
        (fun p => { p with api_key := some ("sk-secret"), enabled := false }) }

/-- C2 witness: importing a payload that rewrites the openai entry leaves the
stored openai api_key untouched. -/
theorem import_preserves_api_key_witness :
    (lookupProv importWitnessS.providers ("openai")).map ProviderSettings.api_key =
      (lookupProv importWitnessR.providers ("openai")).map ProviderSettings.api_key :=
  import_preserves_api_key
    { store := some (some (toValueAppSettings importWitnessR)) }
    importWitnessR importWitnessS importWitnessPayload
    { store := some (some (toValueAppSettings importWitnessS)) }
    rfl rfl ("openai")

/-- C9 (amended): patch, provider patch, import and set_api_key preserve the
provider key set of the current record exactly (unknown provider ids are
ignored and create no key); reset replaces the record with the default, so
its key set is the default key set — equal to the previous one whenever the
record's keys already were the default keys (always the case for records
produced by this store), but not for records whose persisted form carried
foreign keys (see the counterexample). -/
theorem provider_keys_invariant (st : StorageState) (R : AppSettings)
    (hget : get_settings st = Except.ok R) :
    (∀ updates st' S, update_settings st updates = Except.ok (st', S) →
      S.provKeys = R.provKeys) ∧
    (∀ provider updates st' S,
      update_provider_settings st provider updates = Except.ok (st', S) →
      S.provKeys = R.provKeys) ∧
    (∀ payload st' S, import_settings st payload = Except.ok (st', S) →
      S.provKeys = R.provKeys) ∧
    (∀ provider key st' S, set_api_key st provider key = Except.ok (st', S) →
      S.provKeys = R.provKeys) ∧
    (∀ st' S, reset_settings st = Except.ok (st', S) →
      S.provKeys = AppSettings.default.provKeys ∧
      (R.provKeys = AppSettings.default.provKeys → S.provKeys = R.provKeys)) := by
  refine ⟨?_, ?_, ?_, ?_, ?_⟩
  · intro updates st' S h
    rw [update_settings_eq st R updates hget] at h
    simp only [Except.ok.injEq, Prod.mk.injEq] at h
    obtain ⟨-, h2⟩ := h
    subst h2
    show (updates.foldl applyUpdate R).providers.map Prod.fst = _
    rw [foldl_applyUpdate_providers]
    rfl
  · intro provider updates st' S h
    rw [update_provider_settings_eq st R provider updates hget] at h
    simp only [Except.ok.injEq, Prod.mk.injEq] at h
    obtain ⟨-, h2⟩ := h
    subst h2
    show (updateFirst R.providers provider
      (fun p => updates.foldl applyProviderUpdate p)).map Prod.fst = _
    rw [updateFirst_map_fst]
    rfl
  · intro payload st' S h
    cases hfv : fromValueSettingsExport payload with
    | none =>
        unfold import_settings at h
        rw [hfv] at h
        cases h
    | some ex =>
        rw [import_settings_eq st R payload ex hget hfv] at h
        simp only [Except.ok.injEq, Prod.mk.injEq] at h
        obtain ⟨-, h2⟩ := h
        subst h2
        show ((ex.settings.providers.foldl importProvider
          (importBase R ex)).providers).map Prod.fst = _
        rw [foldl_importProvider_keys]
        rfl
  · intro provider key st' S h
    rw [set_api_key_eq st R provider key hget] at h
    simp only [Except.ok.injEq, Prod.mk.injEq] at h
    obtain ⟨-, h2⟩ := h
    subst h2
    show (updateFirst R.providers provider
      (fun p => { p with api_key := key })).map Prod.fst = _
    rw [updateFirst_map_fst]
    rfl
  · intro st' S h
    rw [reset_settings_eq st R hget] at h
    simp only [Except.ok.injEq, Prod.mk.injEq] at h
    obtain ⟨-, h2⟩ := h
    subst h2
    exact ⟨rfl, fun hk => hk.symm⟩

/-- C9 witness: setting an openai api_key keeps the default key set. -/
theorem provider_keys_invariant_witness :
    AppSettings.provKeys
      { AppSettings.default with
        providers :=
          updateFirst AppSettings.default.providers ("openai")
            (fun p => { p with api_key := some ("sk-w") }) } =
      AppSettings.default.provKeys :=
  (provider_keys_invariant { store := some none } AppSettings.default rfl).2.2.2.1
    ("openai") (some ("sk-w"))
    { store := some (some (toValueAppSettings
        { AppSettings.default with
          providers :=
            updateFirst AppSettings.default.providers ("openai")
              (fun p => { p with api_key := some ("sk-w") }) })) }
    { AppSettings.default with
      providers :=
        updateFirst AppSettings.default.providers ("openai")
          (fun p => { p with api_key := some ("sk-w") }) }
    rfl

/-- A record whose persisted form carries a foreign provider key "foo"
(obtainable because deserialization accepts any string keys in the map). -/
def resetKeysRecord : AppSettings :=
  { AppSettings.default with
    providers :=
      (("foo"),
       { api_key := none, custom_endpoint := none, default_model := none,
         rate_limit_rpm := some 1, enabled := false }) :: AppSettings.default.providers }

/-- C9 counterexample to the claim as stated: on a record carrying provider
key "foo", `reset_settings` returns the default record, which no longer has
the key — reset can remove a provider key. -/
theorem reset_removes_foreign_provider_key :
    get_settings { store := some (some (toValueAppSettings resetKeysRecord)) } =
      Except.ok resetKeysRecord ∧
    ("foo") ∈ resetKeysRecord.provKeys ∧
    reset_settings { store := some (some (toValueAppSettings resetKeysRecord)) } =
      Except.ok ({ store := some (some (toValueAppSettings AppSettings.default)) },
        AppSettings.default) ∧
    ("foo") ∉ AppSettings.default.provKeys :=
  ⟨rfl, by decide, rfl, by decide⟩

/-- Whether a top-level patch entry is recognized and its value coerces
(mirrors the branches of `applyUpdate` that change the record). -/
def appliesTop (kv : String × JValue) : Bool :=
  match kv.1 with
  | "theme" => (fromValueTheme kv.2).isSome
  | "sidebar_width" => (fromValueU32 kv.2).isSome
  | "auto_save_interval" => (fromValueU32 kv.2).isSome
  | "default_temperature" => (fromValueF32 kv.2).isSome
  | "default_max_tokens" => (fromValueU32 kv.2).isSome
  | "enable_analytics" => (fromValueBool kv.2).isSome
  | "debug_mode" => (fromValueBool kv.2).isSome
  | "compact_mode" => (fromValueBool kv.2).isSome
  | _ => false

/-- Whether a provider patch entry is recognized and its value coerces
(mirrors the branches of `applyProviderUpdate` that change the config). -/
def appliesProv (kv : String × JValue) : Bool :=
  match kv.1 with
  | "enabled" => (fromValueBool kv.2).isSome
  | "api_key" => (fromValueString kv.2).isSome
  | "custom_endpoint" => (fromValueString kv.2).isSome
  | "default_model" => (fromValueString kv.2).isSome
  | "rate_limit_rpm" => (fromValueU32 kv.2).isSome
  | _ => false

theorem applyUpdate_of_not_applies (s : AppSettings) (kv : String × JValue)
    (h : appliesTop kv = false) : applyUpdate s kv = s := by
  unfold appliesTop at h
  unfold applyUpdate
  split at h <;>
    first
    | rfl
    | (split <;> simp_all)

theorem applyProviderUpdate_of_not_applies (p : ProviderSettings) (kv : String × JValue)
    (h : appliesProv kv = false) : applyProviderUpdate p kv = p := by
  unfold appliesProv at h
  unfold applyProviderUpdate
  split at h <;>
    first
    | rfl
    | (split <;> simp_all)

theorem foldl_applyUpdate_filter (updates : List (String × JValue)) (s : AppSettings) :
    updates.foldl applyUpdate s = (updates.filter appliesTop).foldl applyUpdate s := by
  induction updates generalizing s with
  | nil => rfl
  | cons kv t ih =>
      rw [List.foldl_cons]
      cases h : appliesTop kv with
      | true => rw [List.filter_cons_of_pos h, List.foldl_cons, ih]
      | false => rw [List.filter_cons_of_neg (by simp [h]),
                     applyUpdate_of_not_applies s kv h, ih]

theorem foldl_applyProviderUpdate_filter (updates : List (String × JValue))
    (p : ProviderSettings) :
    updates.foldl applyProviderUpdate p =
      (updates.filter appliesProv).foldl applyProviderUpdate p := by
  induction updates generalizing p with
  | nil => rfl
  | cons kv t ih =>
      rw [List.foldl_cons]
      cases h : appliesProv kv with
      | true => rw [List.filter_cons_of_pos h, List.foldl_cons, ih]
      | false => rw [List.filter_cons_of_neg (by simp [h]),
                     applyProviderUpdate_of_not_applies p kv h, ih]

/-- C5: entries with unrecognized names or values that fail to coerce are
silently skipped: neither patch operation errors on them, and the result is
exactly as if the bad entries had been dropped from the patch while the good
ones are still applied — at the top level and per provider alike. -/
theorem patch_skips_bad_entries (st : StorageState) (R : AppSettings)
    (hget : get_settings st = Except.ok R) (updates : List (String × JValue))
    (provider : String) :
    update_settings st updates =
      Except.ok ({ store := some (some (toValueAppSettings
          ((updates.filter appliesTop).foldl applyUpdate R))) },
        (updates.filter appliesTop).foldl applyUpdate R) ∧
    update_provider_settings st provider updates =
      Except.ok ({ store := some (some (toValueAppSettings
          { R with
            providers := updateFirst R.providers provider
              (fun p => (updates.filter appliesProv).foldl applyProviderUpdate p) })) },
        { R with
          providers := updateFirst R.providers provider
            (fun p => (updates.filter appliesProv).foldl applyProviderUpdate p) }) := by
  constructor
  · rw [update_settings_eq st R updates hget, foldl_applyUpdate_filter]
  · rw [update_provider_settings_eq st R provider updates hget]
    have hfun : (fun p => updates.foldl applyProviderUpdate p) =
        (fun p => (updates.filter appliesProv).foldl applyProviderUpdate p) :=
      funext (fun p => foldl_applyProviderUpdate_filter updates p)
    rw [hfun]

/-- C5 witness: a patch with an unknown name, an ill-typed value for a
recognized name, and a well-typed entry applies just the last one. -/
theorem patch_skips_bad_entries_witness :
    update_settings { store := some none }
      [ (("bogus"), JValue.null),
        (("sidebar_width"), JValue.str ("x")),
        (("sidebar_width"), JValue.num (JNum.int 200)) ] =
      Except.ok ({ store := some (some (toValueAppSettings
          { AppSettings.default with sidebar_width := 200 })) },
        { AppSettings.default with sidebar_width := 200 }) :=
  (patch_skips_bad_entries { store := some none } AppSettings.default rfl
    [ (("bogus"), JValue.null),
      (("sidebar_width"), JValue.str ("x")),
      (("sidebar_width"), JValue.num (JNum.int 200)) ] ("openai")).1

/-! ### Serde round-trip lemmas (needed for C3 and C4) -/

theorem fromValueU32_int (n : Nat) (h : n < u32Bound) :
    fromValueU32 (JValue.num (JNum.int n)) = some n := by
  show (if 0 ≤ (n : Int) ∧ (n : Int) < 4294967296 then some ((n : Int)).toNat else none) =
    some n
  rw [if_pos ⟨Int.natCast_nonneg n, by unfold u32Bound at h; exact_mod_cast h⟩]
  simp

theorem fromValueOptU32_int (n : Nat) (h : n < u32Bound) :
    fromValueOptU32 (JValue.num (JNum.int n)) = some (some n) := by
  show (if 0 ≤ (n : Int) ∧ (n : Int) < 4294967296 then some (some ((n : Int)).toNat) else none) =
    some (some n)
  rw [if_pos ⟨Int.natCast_nonneg n, by unfold u32Bound at h; exact_mod_cast h⟩]
  simp

theorem fromValueOptString_toValue (o : Option String) :
    fromValueOptString (toValueOptString o) = some o := by
  cases o <;> rfl

theorem fromValueOptU32_toValue (o : Option Nat) (h : o.getD 0 < u32Bound) :
    fromValueOptU32 (toValueOptU32 o) = some o := by
  cases o with
  | none => rfl
  | some n => exact fromValueOptU32_int n h

theorem fromValueTheme_toValue (t : ThemeMode) :
    fromValueTheme (toValueTheme t) = some t := by
  cases t <;> rfl

theorem fromValueProviderSettings_toValue (p : ProviderSettings)
    (h : p.rate_limit_rpm.getD 0 < u32Bound) :
    fromValueProviderSettings (toValueProviderSettings p) = some p := by
  show (fromValueOptString (toValueOptString p.api_key)).bind (fun api_key =>
    (fromValueOptString (toValueOptString p.custom_endpoint)).bind (fun custom_endpoint =>
    (fromValueOptString (toValueOptString p.default_model)).bind (fun default_model =>
    (fromValueOptU32 (toValueOptU32 p.rate_limit_rpm)).bind (fun rate_limit_rpm =>
    (fromValueBool (JValue.bool p.enabled)).bind (fun enabled =>
    some { api_key, custom_endpoint, default_model, rate_limit_rpm, enabled }))))) = some p
  rw [fromValueOptString_toValue, fromValueOptString_toValue, fromValueOptString_toValue,
      fromValueOptU32_toValue p.rate_limit_rpm h]
  rfl

theorem mapM_decode_providers (l : List (String × ProviderSettings))
    (h : ∀ kv ∈ l, kv.2.rate_limit_rpm.getD 0 < u32Bound) :
    (l.map (fun kv => (kv.1, toValueProviderSettings kv.2))).mapM
      (fun kv => (fromValueProviderSettings kv.2).map (fun p => (kv.1, p))) = some l := by
  induction l with
  | nil => rfl
  | cons kv t ih =>
      rw [List.map_cons]
      simp only [List.mapM_cons]
      rw [fromValueProviderSettings_toValue kv.2 (h kv (List.mem_cons_self kv t)),
          ih (fun x hx => h x (List.mem_cons_of_mem kv hx))]
      rfl

theorem fromValueProviders_toValue (l : List (String × ProviderSettings))
    (h : ∀ kv ∈ l, kv.2.rate_limit_rpm.getD 0 < u32Bound) :
    fromValueProviders
      (JValue.obj (l.map (fun kv => (kv.1, toValueProviderSettings kv.2)))) = some l := by
  show (l.map (fun kv => (kv.1, toValueProviderSettings kv.2))).mapM
      (fun kv => (fromValueProviderSettings kv.2).map (fun p => (kv.1, p))) = some l
  exact mapM_decode_providers l h

set_option maxRecDepth 1024 in
/-- Evaluation of `fromValueAppSettings` on the canonical 9-key object. -/
theorem fromValueAppSettings_obj9 (v1 v2 v3 v4 v5 v6 v7 v8 v9 : JValue) :
    fromValueAppSettings (JValue.obj
      [(("providers"), v1), (("theme"), v2), (("sidebar_width"), v3),
       (("auto_save_interval"), v4), (("default_temperature"), v5),
       (("default_max_tokens"), v6), (("enable_analytics"), v7), (("debug_mode"), v8),
       (("compact_mode"), v9)]) =
    ((fromValueProviders v1).bind fun providers =>
     (fromValueTheme v2).bind fun theme =>
     (fromValueU32 v3).bind fun sidebar_width =>
     (fromValueU32 v4).bind fun auto_save_interval =>
     (fromValueF32 v5).bind fun default_temperature =>
     (fromValueU32 v6).bind fun default_max_tokens =>
     (fromValueBool v7).bind fun enable_analytics =>
     (fromValueBool v8).bind fun debug_mode =>
     (fromValueBool v9).bind fun compact_mode =>
     some { providers, theme, sidebar_width, auto_save_interval,
            default_temperature, default_max_tokens, enable_analytics,
            debug_mode, compact_mode }) := rfl

theorem fromValueAppSettings_toValue (s : AppSettings) (hwf : s.wf) :
    fromValueAppSettings (toValueAppSettings s) = some s := by
  obtain ⟨hnd, h1, h2, h3, h4⟩ := hwf
  show fromValueAppSettings (JValue.obj
    [(("providers"), JValue.obj
        (s.providers.map (fun kv => (kv.1, toValueProviderSettings kv.2)))),
     (("theme"), toValueTheme s.theme),
     (("sidebar_width"), JValue.num (JNum.int s.sidebar_width)),
     (("auto_save_interval"), JValue.num (JNum.int s.auto_save_interval)),
     (("default_temperature"), JValue.num (JNum.float s.default_temperature)),
     (("default_max_tokens"), JValue.num (JNum.int s.default_max_tokens)),
     (("enable_analytics"), JValue.bool s.enable_analytics),
     (("debug_mode"), JValue.bool s.debug_mode),
     (("compact_mode"), JValue.bool s.compact_mode)]) = some s
  rw [fromValueAppSettings_obj9]
  rw [fromValueProviders_toValue s.providers h4, fromValueTheme_toValue,
      fromValueU32_int s.sidebar_width h1, fromValueU32_int s.auto_save_interval h2,
      fromValueU32_int s.default_max_tokens h3]
  rfl

theorem fromValueProviderSettingsExport_toValue (p : ProviderSettingsExport)
    (h : p.rate_limit_rpm.getD 0 < u32Bound) :
    fromValueProviderSettingsExport (toValueProviderSettingsExport p) = some p := by
  show (fromValueOptString (toValueOptString p.custom_endpoint)).bind (fun custom_endpoint =>
    (fromValueOptString (toValueOptString p.default_model)).bind (fun default_model =>
    (fromValueOptU32 (toValueOptU32 p.rate_limit_rpm)).bind (fun rate_limit_rpm =>
    (fromValueBool (JValue.bool p.enabled)).bind (fun enabled =>
    some { custom_endpoint, default_model, rate_limit_rpm, enabled })))) = some p
  rw [fromValueOptString_toValue, fromValueOptString_toValue,
      fromValueOptU32_toValue p.rate_limit_rpm h]
  rfl

theorem mapM_decode_providersExport (l : List (String × ProviderSettingsExport))
    (h : ∀ kv ∈ l, kv.2.rate_limit_rpm.getD 0 < u32Bound) :
    (l.map (fun kv => (kv.1, toValueProviderSettingsExport kv.2))).mapM
      (fun kv => (fromValueProviderSettingsExport kv.2).map (fun p => (kv.1, p))) = some l := by
  induction l with
  | nil => rfl
  | cons kv t ih =>
      rw [List.map_cons]
      simp only [List.mapM_cons]
      rw [fromValueProviderSettingsExport_toValue kv.2 (h kv (List.mem_cons_self kv t)),
          ih (fun x hx => h x (List.mem_cons_of_mem kv hx))]
      rfl

theorem fromValueProvidersExport_toValue (l : List (String × ProviderSettingsExport))
    (h : ∀ kv ∈ l, kv.2.rate_limit_rpm.getD 0 < u32Bound) :
    fromValueProvidersExport
      (JValue.obj (l.map (fun kv => (kv.1, toValueProviderSettingsExport kv.2)))) = some l := by
  show (l.map (fun kv => (kv.1, toValueProviderSettingsExport kv.2))).mapM
      (fun kv => (fromValueProviderSettingsExport kv.2).map (fun p => (kv.1, p))) = some l
  exact mapM_decode_providersExport l h

set_option maxRecDepth 1024 in
/-- Evaluation of `fromValueAppSettingsExport` on the canonical 9-key object. -/
theorem fromValueAppSettingsExport_obj9 (v1 v2 v3 v4 v5 v6 v7 v8 v9 : JValue) :
    fromValueAppSettingsExport (JValue.obj
      [(("providers"), v1), (("theme"), v2), (("sidebar_width"), v3),
       (("auto_save_interval"), v4), (("default_temperature"), v5),
       (("default_max_tokens"), v6), (("enable_analytics"), v7), (("debug_mode"), v8),
       (("compact_mode"), v9)]) =
    ((fromValueProvidersExport v1).bind fun providers =>
     (fromValueTheme v2).bind fun theme =>
     (fromValueU32 v3).bind fun sidebar_width =>
     (fromValueU32 v4).bind fun auto_save_interval =>
     (fromValueF32 v5).bind fun default_temperature =>
     (fromValueU32 v6).bind fun default_max_tokens =>
     (fromValueBool v7).bind fun enable_analytics =>
     (fromValueBool v8).bind fun debug_mode =>
     (fromValueBool v9).bind fun compact_mode =>
     some { providers, theme, sidebar_width, auto_save_interval,
            default_temperature, default_max_tokens, enable_analytics,
            debug_mode, compact_mode }) := rfl

theorem fromValueAppSettingsExport_toValue (e : AppSettingsExport)
    (h1 : e.sidebar_width < u32Bound) (h2 : e.auto_save_interval < u32Bound)
    (h3 : e.default_max_tokens < u32Bound)
    (h4 : ∀ kv ∈ e.providers, kv.2.rate_limit_rpm.getD 0 < u32Bound) :
    fromValueAppSettingsExport (toValueAppSettingsExport e) = some e := by
  show fromValueAppSettingsExport (JValue.obj
    [(("providers"), JValue.obj
        (e.providers.map (fun kv => (kv.1, toValueProviderSettingsExport kv.2)))),
     (("theme"), toValueTheme e.theme),
     (("sidebar_width"), JValue.num (JNum.int e.sidebar_width)),
     (("auto_save_interval"), JValue.num (JNum.int e.auto_save_interval)),
     (("default_temperature"), JValue.num (JNum.float e.default_temperature)),
     (("default_max_tokens"), JValue.num (JNum.int e.default_max_tokens)),
     (("enable_analytics"), JValue.bool e.enable_analytics),
     (("debug_mode"), JValue.bool e.debug_mode),
     (("compact_mode"), JValue.bool e.compact_mode)]) = some e
  rw [fromValueAppSettingsExport_obj9]
  rw [fromValueProvidersExport_toValue e.providers h4, fromValueTheme_toValue,
      fromValueU32_int e.sidebar_width h1, fromValueU32_int e.auto_save_interval h2,
      fromValueU32_int e.default_max_tokens h3]
  rfl

theorem fromValueSettingsExport_toValue (e : SettingsExport)
    (h1 : e.settings.sidebar_width < u32Bound) (h2 : e.settings.auto_save_interval < u32Bound)
    (h3 : e.settings.default_max_tokens < u32Bound)
    (h4 : ∀ kv ∈ e.settings.providers, kv.2.rate_limit_rpm.getD 0 < u32Bound) :
    fromValueSettingsExport (toValueSettingsExport e) = some e := by
  show (fromValueString (JValue.str e.version)).bind (fun version =>
    (fromValueString (JValue.str e.timestamp)).bind (fun timestamp =>
    (fromValueAppSettingsExport (toValueAppSettingsExport e.settings)).bind (fun settings =>
    some { version, timestamp, settings }))) = some e
  rw [fromValueAppSettingsExport_toValue e.settings h1 h2 h3 h4]
  rfl

/-! ### Import of an export restores the record (C3) -/

/-- The per-provider projection used by `to_export`. -/
def provToExport (p : ProviderSettings) : ProviderSettingsExport :=
  { custom_endpoint := p.custom_endpoint, default_model := p.default_model,
    rate_limit_rpm := p.rate_limit_rpm, enabled := p.enabled }

/-- The per-provider overwrite performed by `import_settings`. -/
def restoreProv (pe : ProviderSettingsExport) (p : ProviderSettings) : ProviderSettings :=
  { p with custom_endpoint := pe.custom_endpoint, default_model := pe.default_model,
           rate_limit_rpm := pe.rate_limit_rpm, enabled := pe.enabled }

theorem foldl_importProvider_eq (provs : List (String × ProviderSettingsExport))
    (acc : AppSettings) :
    provs.foldl importProvider acc =
      { acc with
        providers :=
          provs.foldl (fun ps kv => updateFirst ps kv.1 (restoreProv kv.2))
            acc.providers } := by
  induction provs generalizing acc with
  | nil => rfl
  | cons kv t ih =>
      rw [List.foldl_cons, List.foldl_cons, ih]
      rfl

theorem updateFirst_self (P : List (String × ProviderSettings)) (k : String)
    (v : ProviderSettings) (f : ProviderSettings → ProviderSettings)
    (hnd : (P.map Prod.fst).Nodup) (hmem : (k, v) ∈ P) (hf : f v = v) :
    updateFirst P k f = P := by
  induction P with
  | nil => cases hmem
  | cons kv t ih =>
      rw [List.map_cons, List.nodup_cons] at hnd
      unfold updateFirst
      by_cases h : kv.1 = k
      · rw [if_pos h]
        cases hmem with
        | head => simp [hf]
        | tail _ hmem' =>
            exfalso
            exact hnd.1 (by rw [h]; exact List.mem_map.mpr ⟨(k, v), hmem', rfl⟩)
      · rw [if_neg h]
        have hmem' : (k, v) ∈ t := by
          cases hmem with
          | head => exact absurd rfl h
          | tail _ hm => exact hm
        rw [ih hnd.2 hmem']

theorem restore_fold_self (P : List (String × ProviderSettings))
    (hnd : (P.map Prod.fst).Nodup) :
    ∀ (l : List (String × ProviderSettings)), (∀ kv ∈ l, kv ∈ P) →
      ((l.map (fun kv => (kv.1, provToExport kv.2))).foldl
        (fun ps kv => updateFirst ps kv.1 (restoreProv kv.2)) P) = P := by
  intro l hl
  induction l with
  | nil => rfl
  | cons kv t ih =>
      rw [List.map_cons]
      show ((t.map (fun kv => (kv.1, provToExport kv.2))).foldl
        (fun ps kv => updateFirst ps kv.1 (restoreProv kv.2))
        (updateFirst P kv.1 (restoreProv (provToExport kv.2)))) = P
      rw [updateFirst_self P kv.1 kv.2 (restoreProv (provToExport kv.2)) hnd
          (hl kv (List.mem_cons_self kv t)) rfl]
      exact ih (fun x hx => hl x (List.mem_cons_of_mem kv hx))

theorem import_own_export (R : AppSettings) (hnd : (R.providers.map Prod.fst).Nodup)
    (ex : SettingsExport) (hex : ex.settings = R.to_export) :
    ex.settings.providers.foldl importProvider (importBase R ex) = R := by
  have hbase : importBase R ex = R := by
    unfold importBase
    rw [hex]
    rfl
  rw [foldl_importProvider_eq, hbase, hex]
  show { R with
    providers :=
      ((R.providers.map (fun kv => (kv.1, provToExport kv.2))).foldl
        (fun ps kv => updateFirst ps kv.1 (restoreProv kv.2)) R.providers) } = R
  rw [restore_fold_self R.providers hnd R.providers (fun _ hx => hx)]

theorem to_export_providers_bound (R : AppSettings)
    (h : ∀ kv ∈ R.providers, kv.2.rate_limit_rpm.getD 0 < u32Bound) :
    ∀ kv ∈ R.to_export.providers, kv.2.rate_limit_rpm.getD 0 < u32Bound := by
  intro kv hkv
  obtain ⟨x, hx, rfl⟩ := List.mem_map.mp hkv
  exact h x hx

/-- C3: exporting a record and importing the resulting payload restores the
record exactly — non-provider fields and provider non-credential fields from
the payload, api_keys from the current record. -/
theorem export_import_roundtrip (st : StorageState) (R : AppSettings) (now : String)
    (hget : get_settings st = Except.ok R) (hwf : R.wf) :
    export_settings st now =
      Except.ok { version := ("1.0.0"), timestamp := now, settings := R.to_export } ∧
    import_settings st (toValueSettingsExport
        { version := ("1.0.0"), timestamp := now, settings := R.to_export }) =
      Except.ok ({ store := some (some (toValueAppSettings R)) }, R) := by
  obtain ⟨hnd, h1, h2, h3, h4⟩ := hwf
  constructor
  · exact export_settings_eq st R now hget
  · have hfv : fromValueSettingsExport (toValueSettingsExport
        { version := ("1.0.0"), timestamp := now, settings := R.to_export }) =
        some { version := ("1.0.0"), timestamp := now, settings := R.to_export } :=
      fromValueSettingsExport_toValue
        { version := ("1.0.0"), timestamp := now, settings := R.to_export }
        h1 h2 h3 (to_export_providers_bound R h4)
    rw [import_settings_eq st R _ _ hget hfv]
    rw [import_own_export R hnd
        { version := ("1.0.0"), timestamp := now, settings := R.to_export } rfl]

/-- C3 witness: round-trip through export/import at the default record. -/
theorem export_import_roundtrip_witness :
    import_settings { store := some none }
      (toValueSettingsExport
        { version := ("1.0.0"), timestamp := ("t"),
          settings := AppSettings.default.to_export }) =
      Except.ok ({ store := some (some (toValueAppSettings AppSettings.default)) },
        AppSettings.default) :=
  (export_import_roundtrip { store := some none } AppSettings.default ("t") rfl
    (by decide)).2

/-! ### Field-indexed view of the top-level patch (C4) -/

/-- The recognized top-level patch fields of `update_settings`. -/
inductive TopField where
  | theme | sidebar_width | auto_save_interval | default_temperature
  | default_max_tokens | enable_analytics | debug_mode | compact_mode
deriving DecidableEq

/-- The field name string matched by `update_settings`. -/
def TopField.name : TopField → String
  | TopField.theme => ("theme")
  | TopField.sidebar_width => ("sidebar_width")
  | TopField.auto_save_interval => ("auto_save_interval")
  | TopField.default_temperature => ("default_temperature")
  | TopField.default_max_tokens => ("default_max_tokens")
  | TopField.enable_analytics => ("enable_analytics")
  | TopField.debug_mode => ("debug_mode")
  | TopField.compact_mode => ("compact_mode")

theorem TopField.name_inj (f f' : TopField) (h : f.name = f'.name) : f = f' := by
  cases f <;> cases f' <;> first | rfl | exact absurd h (by decide)

/-- The JSON encoding of one top-level field of a record. -/
def topFieldVal (s : AppSettings) : TopField → JValue
  | TopField.theme => toValueTheme s.theme
  | TopField.sidebar_width => JValue.num (JNum.int s.sidebar_width)
  | TopField.auto_save_interval => JValue.num (JNum.int s.auto_save_interval)
  | TopField.default_temperature => JValue.num (JNum.float s.default_temperature)
  | TopField.default_max_tokens => JValue.num (JNum.int s.default_max_tokens)
  | TopField.enable_analytics => JValue.bool s.enable_analytics
  | TopField.debug_mode => JValue.bool s.debug_mode
  | TopField.compact_mode => JValue.bool s.compact_mode

/-- The type coercion `update_settings` performs for a field, re-encoded:
`some w` when the patch value coerces (`w` its canonical encoding), `none`
when it fails. -/
def coerceTop (f : TopField) (v : JValue) : Option JValue :=
  match f with
  | TopField.theme => (fromValueTheme v).map toValueTheme
  | TopField.sidebar_width => (fromValueU32 v).map (fun n => JValue.num (JNum.int n))
  | TopField.auto_save_interval => (fromValueU32 v).map (fun n => JValue.num (JNum.int n))
  | TopField.default_temperature => (fromValueF32 v).map (fun x => JValue.num (JNum.float x))
  | TopField.default_max_tokens => (fromValueU32 v).map (fun n => JValue.num (JNum.int n))
  | TopField.enable_analytics => (fromValueBool v).map JValue.bool
  | TopField.debug_mode => (fromValueBool v).map JValue.bool
  | TopField.compact_mode => (fromValueBool v).map JValue.bool

theorem fromValueU32_lt (v : JValue) (n : Nat) (h : fromValueU32 v = some n) :
    n < u32Bound := by
  unfold fromValueU32 at h
  split at h
  · split at h
    · rename_i hcond
      injection h with h'
      subst h'
      unfold u32Bound
      omega
    · cases h
  · cases h

theorem applyUpdate_wf (s : AppSettings) (kv : String × JValue) (h : s.wf) :
    (applyUpdate s kv).wf := by
  obtain ⟨hnd, h1, h2, h3, h4⟩ := h
  unfold applyUpdate
  split
  all_goals try exact ⟨hnd, h1, h2, h3, h4⟩
  all_goals split
  all_goals try exact ⟨hnd, h1, h2, h3, h4⟩
  all_goals rename_i heq
  all_goals
    first
    | exact ⟨hnd, fromValueU32_lt _ _ heq, h2, h3, h4⟩
    | exact ⟨hnd, h1, fromValueU32_lt _ _ heq, h3, h4⟩
    | exact ⟨hnd, h1, h2, fromValueU32_lt _ _ heq, h4⟩

theorem foldl_applyUpdate_wf (F : List (String × JValue)) (s : AppSettings) (h : s.wf) :
    (F.foldl applyUpdate s).wf := by
  induction F generalizing s with
  | nil => exact h
  | cons kv t ih => exact ih (applyUpdate s kv) (applyUpdate_wf s kv h)

theorem topFieldVal_applyUpdate_eq (s : AppSettings) (kv : String × JValue) (f : TopField)
    (hname : f.name = kv.1) (hsome : (coerceTop f kv.2).isSome = true) :
    some (topFieldVal (applyUpdate s kv) f) = coerceTop f kv.2 := by
  cases f with
  | theme =>
      have hk : kv.1 = ("theme") := hname.symm
      unfold applyUpdate
      rw [hk]
      simp only [coerceTop] at hsome ⊢
      cases hv : fromValueTheme kv.2 with
      | some t => rfl
      | none => rw [hv] at hsome; simp at hsome
  | sidebar_width =>
      have hk : kv.1 = ("sidebar_width") := hname.symm
      unfold applyUpdate
      rw [hk]
      simp only [coerceTop] at hsome ⊢
      cases hv : fromValueU32 kv.2 with
      | some n => rfl
      | none => rw [hv] at hsome; simp at hsome
  | auto_save_interval =>
      have hk : kv.1 = ("auto_save_interval") := hname.symm
      unfold applyUpdate
      rw [hk]
      simp only [coerceTop] at hsome ⊢
      cases hv : fromValueU32 kv.2 with
      | some n => rfl
      | none => rw [hv] at hsome; simp at hsome
  | default_temperature =>
      have hk : kv.1 = ("default_temperature") := hname.symm
      unfold applyUpdate
      rw [hk]
      simp only [coerceTop] at hsome ⊢
      cases hv : fromValueF32 kv.2 with
      | some x => rfl
      | none => rw [hv] at hsome; simp at hsome
  | default_max_tokens =>
      have hk : kv.1 = ("default_max_tokens") := hname.symm
      unfold applyUpdate
      rw [hk]
      simp only [coerceTop] at hsome ⊢
      cases hv : fromValueU32 kv.2 with
      | some n => rfl
      | none => rw [hv] at hsome; simp at hsome
  | enable_analytics =>
      have hk : kv.1 = ("enable_analytics") := hname.symm
      unfold applyUpdate
      rw [hk]
      simp only [coerceTop] at hsome ⊢
      cases hv : fromValueBool kv.2 with
      | some b => rfl
      | none => rw [hv] at hsome; simp at hsome
  | debug_mode =>
      have hk : kv.1 = ("debug_mode") := hname.symm
      unfold applyUpdate
      rw [hk]
      simp only [coerceTop] at hsome ⊢
      cases hv : fromValueBool kv.2 with
      | some b => rfl
      | none => rw [hv] at hsome; simp at hsome
  | compact_mode =>
      have hk : kv.1 = ("compact_mode") := hname.symm
      unfold applyUpdate
      rw [hk]
      simp only [coerceTop] at hsome ⊢
      cases hv : fromValueBool kv.2 with
      | some b => rfl
      | none => rw [hv] at hsome; simp at hsome

theorem topFieldVal_applyUpdate_ne (s : AppSettings) (kv : String × JValue) (f : TopField)
    (hne : f.name ≠ kv.1) : topFieldVal (applyUpdate s kv) f = topFieldVal s f := by
  unfold applyUpdate
  split
  all_goals try rfl
  all_goals rename_i heq
  all_goals split
  all_goals try rfl
  all_goals (cases f <;> first | rfl | exact absurd (by rw [heq]; rfl) hne)

theorem foldl_applyUpdate_char (F : List (String × JValue))
    (hnd : (F.map Prod.fst).Nodup)
    (hrec : ∀ kv ∈ F, ∃ f : TopField, f.name = kv.1 ∧ (coerceTop f kv.2).isSome = true)
    (s : AppSettings) :
    (∀ kv ∈ F, ∀ f : TopField, f.name = kv.1 →
      some (topFieldVal (F.foldl applyUpdate s) f) = coerceTop f kv.2) ∧
    (∀ f : TopField, f.name ∉ F.map Prod.fst →
      topFieldVal (F.foldl applyUpdate s) f = topFieldVal s f) := by
  induction F generalizing s with
  | nil => exact ⟨fun kv hkv => absurd hkv (List.not_mem_nil kv), fun f _ => rfl⟩
  | cons kv t ih =>
      rw [List.map_cons, List.nodup_cons] at hnd
      obtain ⟨ihA, ihB⟩ :=
        ih hnd.2 (fun x hx => hrec x (List.mem_cons_of_mem kv hx)) (applyUpdate s kv)
      constructor
      · intro kv' hkv' f hfname
        rw [List.foldl_cons]
        cases List.mem_cons.mp hkv' with
        | inl heq =>
            subst heq
            rw [ihB f (by rw [hfname]; exact hnd.1)]
            obtain ⟨f0, hf0name, hf0some⟩ := hrec kv' (List.mem_cons_self kv' t)
            have hf : (coerceTop f kv'.2).isSome = true := by
              have hff0 : f = f0 := TopField.name_inj f f0 (by rw [hfname, hf0name])
              rw [hff0]
              exact hf0some
            exact topFieldVal_applyUpdate_eq s kv' f hfname hf
        | inr htail => exact ihA kv' htail f hfname
      · intro f hfnotin
        rw [List.foldl_cons]
        simp only [List.map_cons, List.mem_cons, not_or] at hfnotin
        rw [ihB f hfnotin.2]
        exact topFieldVal_applyUpdate_ne s kv f hfnotin.1

theorem toValueTheme_inj (t t' : ThemeMode) (h : toValueTheme t = toValueTheme t') :
    t = t' := by
  cases t <;> cases t' <;> first | rfl | (injection h with h'; exact absurd h' (by decide))

theorem AppSettings.ext_fields (a b : AppSettings)
    (hprov : a.providers = b.providers)
    (h : ∀ f : TopField, topFieldVal a f = topFieldVal b f) : a = b := by
  have ht := h TopField.theme
  have hs := h TopField.sidebar_width
  have ha := h TopField.auto_save_interval
  have htp := h TopField.default_temperature
  have hm := h TopField.default_max_tokens
  have he := h TopField.enable_analytics
  have hd := h TopField.debug_mode
  have hc := h TopField.compact_mode
  simp only [topFieldVal] at ht hs ha htp hm he hd hc
  obtain ⟨ap, ath, aw, aa, atp, am, ae, ad, ac⟩ := a
  obtain ⟨bp, bth, bw, ba, btp, bm, be, bd, bc⟩ := b
  simp only [AppSettings.mk.injEq]
  refine ⟨hprov, toValueTheme_inj _ _ ht, ?_, ?_, ?_, ?_, ?_, ?_, ?_⟩
  · exact_mod_cast JNum.int.inj (JValue.num.inj hs)
  · exact_mod_cast JNum.int.inj (JValue.num.inj ha)
  · exact JNum.float.inj (JValue.num.inj htp)
  · exact_mod_cast JNum.int.inj (JValue.num.inj hm)
  · exact JValue.bool.inj he
  · exact JValue.bool.inj hd
  · exact JValue.bool.inj hc

/-- C4: a patch of recognized, well-typed, duplicate-free entries, followed by
a read, yields a record reflecting exactly the patched fields, with all other
fields and the provider map unchanged; applying the same patch again changes
nothing (idempotence, including the persisted state). -/
theorem patch_then_get (st : StorageState) (R : AppSettings)
    (hget : get_settings st = Except.ok R) (hwf : R.wf)
    (F : List (String × JValue)) (hnd : (F.map Prod.fst).Nodup)
    (hrec : ∀ kv ∈ F, ∃ f : TopField, f.name = kv.1 ∧ (coerceTop f kv.2).isSome = true)
    (st' : StorageState) (S : AppSettings)
    (hup : update_settings st F = Except.ok (st', S)) :
    get_settings st' = Except.ok S ∧
    (∀ kv ∈ F, ∀ f : TopField, f.name = kv.1 →
      some (topFieldVal S f) = coerceTop f kv.2) ∧
    (∀ f : TopField, f.name ∉ F.map Prod.fst → topFieldVal S f = topFieldVal R f) ∧
    S.providers = R.providers ∧
    update_settings st' F = Except.ok (st', S) := by
  rw [update_settings_eq st R F hget] at hup
  simp only [Except.ok.injEq, Prod.mk.injEq] at hup
  obtain ⟨hst', hS⟩ := hup
  subst hS
  subst hst'
  have hwfS : (F.foldl applyUpdate R).wf := foldl_applyUpdate_wf F R hwf
  obtain ⟨hA, hB⟩ := foldl_applyUpdate_char F hnd hrec R
  have hget' : get_settings
      { store := some (some (toValueAppSettings (F.foldl applyUpdate R))) } =
      Except.ok (F.foldl applyUpdate R) := by
    show (match fromValueAppSettings (toValueAppSettings (F.foldl applyUpdate R)) with
      | some s => Except.ok s
      | none => Except.error ("Failed to deserialize settings")) = _
    rw [fromValueAppSettings_toValue _ hwfS]
  refine ⟨hget', hA, hB, foldl_applyUpdate_providers F R, ?_⟩
  rw [update_settings_eq _ (F.foldl applyUpdate R) F hget']
  have hidem : F.foldl applyUpdate (F.foldl applyUpdate R) = F.foldl applyUpdate R := by
    obtain ⟨hA2, hB2⟩ := foldl_applyUpdate_char F hnd hrec (F.foldl applyUpdate R)
    apply AppSettings.ext_fields
    · rw [foldl_applyUpdate_providers]
    · intro f
      by_cases hf : f.name ∈ F.map Prod.fst
      · obtain ⟨kv, hkv, hname'⟩ := List.mem_map.mp hf
        have e1 := hA2 kv hkv f hname'.symm
        have e2 := hA kv hkv f hname'.symm
        have e3 := e1.trans e2.symm
        exact Option.some.inj e3
      · rw [hB2 f hf]
  rw [hidem]

/-- C4 witness: the spec's example — patching `sidebar_width` to 480 on the
default record persists and reads back exactly that change. -/
theorem patch_then_get_witness :
    get_settings { store := some (some (toValueAppSettings
      { AppSettings.default with sidebar_width := 480 })) } =
      Except.ok { AppSettings.default with sidebar_width := 480 } :=
  (patch_then_get { store := some none } AppSettings.default rfl (by decide)
    [(("sidebar_width"), JValue.num (JNum.int 480))] (by decide)
    (by
      intro kv hkv
      rw [List.mem_singleton] at hkv
      subst hkv
      exact ⟨TopField.sidebar_width, rfl, rfl⟩)
    { store := some (some (toValueAppSettings
        { AppSettings.default with sidebar_width := 480 })) }
    { AppSettings.default with sidebar_width := 480 }
    rfl).1

end Loki
